import Mathlib

/-!
Verification development for the multi-tenant contact-form service
(`supabase/functions/contact/index.ts` and the SQL rate-limit RPC
`check_and_increment_rate_limit` from the repository DDL).

JavaScript strings are embedded as `List Char` (one entry per code point;
all data handled by this service is ASCII, where JS UTF-16 length and
code-point length agree).  `String.prototype.trim`, `toLowerCase`,
`split(",")[0]` and the email regular expression are embedded as
executable functions on `List Char`.
-/

/-- A JavaScript string, embedded as a list of characters. -/
abbrev JStr := List Char

/-- The whitespace class of JavaScript (`\s`, and the set trimmed by
`String.prototype.trim`): ASCII whitespace, NBSP, and the Unicode
space separators, line/paragraph separators and BOM. -/
def isJsWhitespace (c : Char) : Bool :=
  decide (c.toNat = 9 ∨ c.toNat = 10 ∨ c.toNat = 11 ∨ c.toNat = 12 ∨ c.toNat = 13 ∨
    c.toNat = 32 ∨ c.toNat = 0xa0 ∨ c.toNat = 0x1680 ∨
    (0x2000 ≤ c.toNat ∧ c.toNat ≤ 0x200a) ∨
    c.toNat = 0x2028 ∨ c.toNat = 0x2029 ∨ c.toNat = 0x202f ∨
    c.toNat = 0x205f ∨ c.toNat = 0x3000 ∨ c.toNat = 0xfeff)

/-- `String.prototype.trim`: drop JS whitespace from both ends. -/
def jsTrim (s : JStr) : JStr :=
  (((s.dropWhile isJsWhitespace).reverse.dropWhile isJsWhitespace)).reverse

/-- `String.prototype.toLowerCase` on one character, restricted to the
ASCII letters (the only case-mapped characters appearing in this
service's configuration data and enumerations): map `A`..`Z` (code
points 65 to 90) to the code point 32 higher. -/
def jsCharToLower (c : Char) : Char :=
  if 65 ≤ c.toNat ∧ c.toNat ≤ 90 then Char.ofNat (c.toNat + 32) else c

/-- `String.prototype.toLowerCase`, character by character. -/
def jsToLower (s : JStr) : JStr := s.map jsCharToLower

/-- `normalizeTenantSlug` from index.ts: `s.trim().toLowerCase()`. -/
def normalizeTenantSlug (s : JStr) : JStr := jsToLower (jsTrim s)

/-- `CONTACT_TYPES` from index.ts. -/
def CONTACT_TYPES : List JStr :=
  ["budget_request".data, "general_query".data, "commercial_proposal".data, "other".data]

/-- `normalizeContactType` from index.ts:
`String(value ?? "").trim().toLowerCase()`, kept when a member of
`CONTACT_TYPES`, else the `"general_query"` fallback.  A missing field
(JS `undefined`) is the `none` case. -/
def normalizeContactType (value : Option JStr) : JStr :=
  let raw := jsToLower (jsTrim (value.getD []))
  if CONTACT_TYPES.contains raw then raw else "general_query".data

/-- A character matched by the regex class `[^\s@]`. -/
def isEmailChar (c : Char) : Bool := !(isJsWhitespace c) && !(c = '@')

/-- `isValidEmail` from index.ts: the regex `/^[^\s@]+@[^\s@]+\.[^\s@]+$/`.
A string matches iff it splits as `a ++ "@" ++ t` with `a` a non-empty
run of `[^\s@]` characters (everything before the first `@`), `t` a
non-empty run of `[^\s@]` characters, and `t` containing a `.` that is
neither its first nor its last character. -/
def isValidEmail (s : JStr) : Bool :=
  let a := s.takeWhile isEmailChar
  match s.drop a.length with
  | '@' :: t =>
      !(a.isEmpty) && t.all isEmailChar && ((t.drop 1).dropLast.contains '.')
  | _ => false

/-- `MAX_NAME_LEN` from index.ts. -/
def MAX_NAME_LEN : Nat := 120
/-- `MAX_EMAIL_LEN` from index.ts. -/
def MAX_EMAIL_LEN : Nat := 180
/-- `MAX_PHONE_LEN` from index.ts. -/
def MAX_PHONE_LEN : Nat := 50
/-- `MAX_COMPANY_NAME_LEN` from index.ts. -/
def MAX_COMPANY_NAME_LEN : Nat := 160
/-- `MAX_MESSAGE_LEN` from index.ts. -/
def MAX_MESSAGE_LEN : Nat := 4000
/-- `STEALTH_MODE_ALWAYS_200` from index.ts. -/
def STEALTH_MODE_ALWAYS_200 : Bool := true

/-- The JSON request body (`ContactPayload` in index.ts).  Each field is
optional (`undefined` in JS is `none`); `company_website` is the
designated honeypot field (`HONEYPOT_FIELD`). -/
structure ContactPayload where
  tenant : Option JStr := none
  name : Option JStr := none
  email : Option JStr := none
  phone : Option JStr := none
  company_name : Option JStr := none
  contact_type : Option JStr := none
  message : Option JStr := none
  company_website : Option JStr := none
deriving DecidableEq

/-- A row of `tenant_contact_settings` (`TenantSettings` in index.ts).
`allowed_origins` and `rate_limit_per_hour` are kept optional because the
handler defends against `null` with `?? []` and `?? 10`. -/
structure TenantSettings where
  tenant_slug : JStr
  allowed_origins : Option (List JStr)
  slack_webhook_url : JStr
  rate_limit_per_hour : Option Int
  enabled : Bool
deriving DecidableEq

/-- The inbound HTTP request: method, the headers the handler reads, and
the parsed JSON body (`none` when `req.json()` throws). -/
structure Request where
  method : JStr
  origin : Option JStr := none
  xForwardedFor : Option JStr := none
  xRealIp : Option JStr := none
  userAgent : Option JStr := none
  body : Option ContactPayload := none
deriving DecidableEq

/-- The two environment variables read by the handler. -/
structure Env where
  supabaseUrl : Option JStr
  serviceRoleKey : Option JStr
deriving DecidableEq

/-- Outcome of the `tenant_contact_settings` lookup
(`.eq("tenant_slug", tenant).maybeSingle()`): a backend error
(`settingsErr`), no row (`data` null), or a row. -/
inductive SettingsResult where
  | err : SettingsResult
  | notFound : SettingsResult
  | found : TenantSettings → SettingsResult
deriving DecidableEq

/-- Outcome of the `check_and_increment_rate_limit` RPC call as seen by
the handler: a backend error (`rlErr`), or `data` of type
`boolean | null`. -/
inductive RpcResult where
  | err : RpcResult
  | val : Option Bool → RpcResult
deriving DecidableEq

/-- Outcome of the `form_submissions` insert: success, an error result
(`insertErr` non-null), or a thrown exception. -/
inductive InsertResult where
  | ok : InsertResult
  | errResult : InsertResult
  | thrown : InsertResult
deriving DecidableEq

/-- The per-request outcomes of the three backend calls the handler can
make (the external collaborators, modelled as oracles). -/
structure Db where
  settings : SettingsResult
  rpc : RpcResult
  insert : InsertResult
deriving DecidableEq

/-- A response body: `{"ok": true}`, `{"error": code}`, or `null`
(the 204 preflight). -/
inductive RespBody where
  | okTrue : RespBody
  | errorCode : JStr → RespBody
  | empty : RespBody
deriving DecidableEq

/-- An HTTP response: status, body, and headers (name/value pairs). -/
structure Response where
  status : Nat
  body : RespBody
  headers : List (JStr × JStr)
deriving DecidableEq

/-- `corsHeaders` from index.ts. -/
def corsHeaders (origin : JStr) : List (JStr × JStr) :=
  [("access-control-allow-origin".data, origin),
   ("access-control-allow-methods".data, "POST, OPTIONS".data),
   ("access-control-allow-headers".data, "content-type".data),
   ("access-control-max-age".data, "86400".data),
   ("vary".data, "Origin".data)]

/-- `jsonResponse` from index.ts: serializes the body and prepends the
`content-type` header to the given extra headers. -/
def jsonResponse (status : Nat) (body : RespBody) (headers : List (JStr × JStr)) : Response :=
  { status := status, body := body,
    headers := ("content-type".data, "application/json; charset=utf-8".data) :: headers }

/-- `okStealth` from index.ts: a 200 `{"ok": true}` response, with CORS
headers when the origin string is truthy (non-empty). -/
def okStealth (origin : JStr) : Response :=
  jsonResponse 200 .okTrue (if origin = [] then [] else corsHeaders origin)

/-- `getClientIp` from index.ts: first entry of `x-forwarded-for`
(trimmed), else `x-real-ip` (trimmed), else the sentinel `"0.0.0.0"`.
A missing header and an empty header value are both falsy in JS. -/
def getClientIp (req : Request) : JStr :=
  let xff := req.xForwardedFor.getD []
  if xff ≠ [] then jsTrim (xff.takeWhile (fun c => c ≠ ','))
  else
    let real := req.xRealIp.getD []
    if real ≠ [] then jsTrim real
    else "0.0.0.0".data

/-- `formatContactType` from index.ts (the switch over the four contact
types; `"other"` is rendered by the final arm). -/
def formatContactType (ct : JStr) : JStr :=
  if ct = "budget_request".data then "Budget request".data
  else if ct = "general_query".data then "General query".data
  else if ct = "commercial_proposal".data then "Commercial proposal".data
  else "Other".data

/-- The trimmed/normalized fields the handler extracts from the payload
(index.ts lines 189 to 196). -/
structure Fields where
  tenant : JStr
  name : JStr
  email : JStr
  phone : JStr
  company_name : JStr
  contact_type : JStr
  message : JStr
  honeypot : JStr
deriving DecidableEq

/-- Field extraction from index.ts lines 189 to 196: `tenant` is
slug-normalized, `email` is trimmed then lower-cased, the other texts
are trimmed, `contact_type` is coerced, and the honeypot field is
trimmed. -/
def extractFields (p : ContactPayload) : Fields :=
  { tenant := normalizeTenantSlug (p.tenant.getD [])
    name := jsTrim (p.name.getD [])
    email := jsToLower (jsTrim (p.email.getD []))
    phone := jsTrim (p.phone.getD [])
    company_name := jsTrim (p.company_name.getD [])
    contact_type := normalizeContactType p.contact_type
    message := jsTrim (p.message.getD [])
    honeypot := jsTrim (p.company_website.getD []) }

/-- The basic validation block of index.ts lines 201 to 206, in source
order; yields the error code of the first failing check, or `none`. -/
def firstValidationError (f : Fields) : Option JStr :=
  if f.tenant = [] ∨ 64 < f.tenant.length then some ("invalid_tenant".data)
  else if f.name = [] ∨ MAX_NAME_LEN < f.name.length then some ("invalid_name".data)
  else if f.email = [] ∨ MAX_EMAIL_LEN < f.email.length ∨ isValidEmail f.email = false then
    some ("invalid_email".data)
  else if MAX_PHONE_LEN < f.phone.length then some ("invalid_phone".data)
  else if MAX_COMPANY_NAME_LEN < f.company_name.length then some ("invalid_company_name".data)
  else if f.message = [] ∨ MAX_MESSAGE_LEN < f.message.length then some ("invalid_message".data)
  else none

/-- A row inserted into `form_submissions` (index.ts lines 245 to 255):
empty trimmed `phone`, `company_name`, `user_agent` become SQL `null`
(`x || null`), and the sentinel ip `"0.0.0.0"` is stored as `null`. -/
structure SubmissionRow where
  tenant_slug : JStr
  name : JStr
  email : JStr
  phone : Option JStr
  company_name : Option JStr
  contact_type : JStr
  message : JStr
  ip : Option JStr
  user_agent : Option JStr
deriving DecidableEq

/-- Which terminal branch of the handler produced the response. -/
inductive Outcome where
  | preflight : Outcome
  | methodNotAllowed : Outcome
  | misconfigured : Outcome
  | invalidJson : Outcome
  | honeypot : Outcome
  | invalidField : JStr → Outcome
  | tenantRejected : Outcome
  | originRejected : Outcome
  | rateLimited : Outcome
  | admitted : Outcome
deriving DecidableEq

/-- The observable side effects of one request: the rate-limit RPC call
(tenant, ip, limit) if made, the `form_submissions` insert attempt and
its outcome if made, the Slack text if constructed, and the notification
delivery attempt if made (the `postToSlack` call at index.ts line 274 is
commented out, so the handler never makes one). -/
structure Effects where
  rlCall : Option (JStr × JStr × Int)
  auditAttempt : Option SubmissionRow
  auditResult : Option InsertResult
  slackText : Option JStr
  notifyAttempt : Option (JStr × JStr)
deriving DecidableEq

/-- No side effect at all. -/
def noEffects : Effects :=
  { rlCall := none, auditAttempt := none, auditResult := none,
    slackText := none, notifyAttempt := none }

/-- The full result of handling one request. -/
structure HandlerResult where
  response : Response
  outcome : Outcome
  effects : Effects
deriving DecidableEq

/-- The Slack message built at index.ts lines 263 to 272. -/
def buildSlackText (f : Fields) (origin ip : JStr) : JStr :=
  "🟦 *New contact (".data ++ f.tenant ++ ")*\n".data ++
  "• *Type:* ".data ++ formatContactType f.contact_type ++ "\n".data ++
  (if f.company_name = [] then [] else "• *Company:* ".data ++ f.company_name ++ "\n".data) ++
  "• *Name:* ".data ++ f.name ++ "\n".data ++
  "• *Email:* ".data ++ f.email ++ "\n".data ++
  (if f.phone = [] then [] else "• *Phone:* ".data ++ f.phone ++ "\n".data) ++
  "• *Message:*\n".data ++ f.message ++ "\n".data ++
  "• *Origin:* ".data ++ origin ++ "\n".data ++
  "• *IP:* ".data ++ ip

/-- The `Deno.serve` handler of index.ts, lines 162 to 277, with the
three backend calls replaced by the per-request oracle `db`.  Branches
follow the source's `return` statements in order. -/
def handleRequest (env : Env) (db : Db) (req : Request) : HandlerResult :=
  let origin := req.origin.getD []
  if req.method = "OPTIONS".data then
    { response := { status := 204, body := .empty, headers := corsHeaders origin }
      outcome := .preflight, effects := noEffects }
  else if req.method ≠ "POST".data then
    { response := jsonResponse 405 (.errorCode ("method_not_allowed".data)) []
      outcome := .methodNotAllowed, effects := noEffects }
  else if env.supabaseUrl.getD [] = [] ∨ env.serviceRoleKey.getD [] = [] then
    { response := jsonResponse 500 (.errorCode ("server_misconfigured".data)) []
      outcome := .misconfigured, effects := noEffects }
  else
    match req.body with
    | none =>
      { response := if STEALTH_MODE_ALWAYS_200 then okStealth origin
                    else jsonResponse 400 (.errorCode ("invalid_json".data)) []
        outcome := .invalidJson, effects := noEffects }
    | some payload =>
      let f := extractFields payload
      if f.honeypot ≠ [] then
        { response := okStealth origin, outcome := .honeypot, effects := noEffects }
      else
        match firstValidationError f with
        | some code =>
          { response := if STEALTH_MODE_ALWAYS_200 then okStealth origin
                        else jsonResponse 400 (.errorCode code) []
            outcome := .invalidField code, effects := noEffects }
        | none =>
          match db.settings with
          | .err =>
            { response := okStealth origin, outcome := .tenantRejected, effects := noEffects }
          | .notFound =>
            { response := okStealth origin, outcome := .tenantRejected, effects := noEffects }
          | .found s =>
            if s.enabled = false then
              { response := okStealth origin, outcome := .tenantRejected, effects := noEffects }
            else if origin = [] ∨ (s.allowed_origins.getD []).contains origin = false then
              { response := if STEALTH_MODE_ALWAYS_200 then okStealth origin
                            else jsonResponse 403 (.errorCode ("forbidden_origin".data)) (corsHeaders origin)
                outcome := .originRejected, effects := noEffects }
            else
              let ip := getClientIp req
              let user_agent := req.userAgent.getD []
              let limit := s.rate_limit_per_hour.getD 10
              match db.rpc with
              | .val (some true) =>
                let row : SubmissionRow :=
                  { tenant_slug := f.tenant, name := f.name, email := f.email
                    phone := if f.phone = [] then none else some f.phone
                    company_name := if f.company_name = [] then none else some f.company_name
                    contact_type := f.contact_type, message := f.message
                    ip := if ip = "0.0.0.0".data then none else some ip
                    user_agent := if user_agent = [] then none else some user_agent }
                { response := jsonResponse 200 .okTrue (corsHeaders origin)
                  outcome := .admitted
                  effects := { rlCall := some (f.tenant, ip, limit)
                               auditAttempt := some row
                               auditResult := some db.insert
                               slackText := some (buildSlackText f origin ip)
                               notifyAttempt := none } }
              | _ =>
                { response := if STEALTH_MODE_ALWAYS_200 then okStealth origin
                              else jsonResponse 429 (.errorCode ("rate_limited".data)) (corsHeaders origin)
                  outcome := .rateLimited
                  effects := { rlCall := some (f.tenant, ip, limit)
                               auditAttempt := none, auditResult := none
                               slackText := none, notifyAttempt := none } }

/-- The source condition `settingsErr || !settings || settings.enabled !== true`
(index.ts line 217): the tenant lookup failed, found no row, or found a
disabled tenant. -/
def settingsRejects : SettingsResult → Bool
  | .err => true
  | .notFound => true
  | .found s => !s.enabled

/-- Tenant resolution: the handler normalizes the identifier
(index.ts line 189) and the store is queried by exact equality on
`tenant_slug` (index.ts line 212), modelled as a lookup in a registry
list. -/
def resolveTenant (reg : List TenantSettings) (s : JStr) : Option TenantSettings :=
  reg.find? (fun t => t.tenant_slug == normalizeTenantSlug s)

/-- Composite key of `rate_limit_counters` (DDL): tenant slug, source
address, and the hour bucket (`date_trunc('hour', now())`, numbered as
hours since the epoch). -/
structure RLKey where
  tenant : JStr
  ip : JStr
  bucket_hour : Nat
deriving DecidableEq

/-- The `rate_limit_counters` table: the `count` of a row keyed by an
`RLKey`, or `none` when no row exists. -/
def RLState : Type := RLKey → Option Nat

/-- The SQL RPC `check_and_increment_rate_limit` from the DDL, for a
fixed current hour (the caller's key carries the bucket that
`date_trunc('hour', now())` yields): atomically upsert the row —
inserting it with count 1, or incrementing the existing count — and
return whether the post-increment count is at most `p_limit`. -/
def check_and_increment_rate_limit (st : RLState) (k : RLKey) (p_limit : Int) :
    Bool × RLState :=
  let v_count : Nat := match st k with | none => 1 | some c => c + 1
  (decide ((v_count : Int) ≤ p_limit),
   fun k2 => if k2 = k then some v_count else st k2)

/-- The counter value of a key, reading a missing row as 0. -/
def getCount (st : RLState) (k : RLKey) : Nat := (st k).getD 0

/-- Run `n` successive `check_and_increment_rate_limit` calls for one
key, threading the store state; returns the list of returned booleans in
call order and the final state. -/
def runAttempts (k : RLKey) (p_limit : Int) : RLState → Nat → List Bool × RLState
  | st, 0 => ([], st)
  | st, Nat.succ n =>
    let r := check_and_increment_rate_limit st k p_limit
    let rest := runAttempts k p_limit r.2 n
    (r.1 :: rest.1, rest.2)

/-- A store with no counter rows. -/
def rlEmpty : RLState := fun _ => none

/-- A store in which every key already has count 7 (used to exercise the
single-call contract at a non-initial count). -/
def rlSeven : RLState := fun _ => some 7

/-- A concrete rate-limit key. -/
def rlKeySample : RLKey :=
  { tenant := "cfobras".data, ip := "203.0.113.9".data, bucket_hour := 491000 }

/-- A well-formed environment (both variables set and non-empty). -/
def envOk : Env :=
  { supabaseUrl := some ("https://example.supabase.co".data)
    serviceRoleKey := some ("service-role-key".data) }

/-- The seed tenant of the DDL: slug `cfobras`, one allowed origin,
quota 10, enabled. -/
def sampleSettings : TenantSettings :=
  { tenant_slug := "cfobras".data
    allowed_origins := some ["https://cf-obras-civiles-web-kplb.bolt.host".data]
    slack_webhook_url := "https://hooks.slack.com/services/XXX/YYY/ZZZ".data
    rate_limit_per_hour := some 10
    enabled := true }

/-- `sampleSettings` with the enabled flag off. -/
def disabledSettings : TenantSettings :=
  { sampleSettings with enabled := false }

/-- A backend in which every call succeeds and the tenant is found. -/
def dbOk : Db := { settings := .found sampleSettings, rpc := .val (some true), insert := .ok }

/-- A backend whose tenant lookup fails with an error. -/
def dbErr : Db := { settings := .err, rpc := .val (some true), insert := .ok }

/-- A backend that finds the tenant but with the enabled flag off. -/
def dbDisabled : Db :=
  { settings := .found disabledSettings, rpc := .val (some true), insert := .ok }

/-- A healthy backend whose audit insert throws. -/
def dbThrown : Db :=
  { settings := .found sampleSettings, rpc := .val (some true), insert := .thrown }

/-- A fully valid payload for the seed tenant (honeypot sent empty as
the README instructs). -/
def basePayload : ContactPayload :=
  { tenant := some ("cfobras".data)
    name := some ("Test User".data)
    email := some ("test@example.com".data)
    phone := none
    company_name := some ("Test Corp".data)
    contact_type := some ("general_query".data)
    message := some ("Este es un mensaje de prueba".data)
    company_website := some [] }

/-- A valid POST request carrying `basePayload` from the allowed
origin. -/
def baseReq : Request :=
  { method := "POST".data
    origin := some ("https://cf-obras-civiles-web-kplb.bolt.host".data)
    xForwardedFor := some ("203.0.113.9".data)
    xRealIp := none
    userAgent := some ("curl/8.0".data)
    body := some basePayload }

/-- `baseReq` with a whitespace-only honeypot value (non-empty before
trimming). -/
def honeypotSpaceReq : Request :=
  { baseReq with body := some { basePayload with company_website := some (" ".data) } }

/-- Tenant settings whose allow-list contains the empty string. -/
def emptyOriginSettings : TenantSettings :=
  { sampleSettings with allowed_origins := some [[]] }

/-- A valid POST request with no Origin header, against a backend whose
allow-list contains the empty string. -/
def noOriginReq : Request := { baseReq with origin := none }

/-- `basePayload` with a whitespace-only phone and an empty company
name. -/
def noIpPayload : ContactPayload :=
  { basePayload with phone := some ("   ".data), company_name := some [] }

/-- A request with no forwarding headers at all, carrying
`noIpPayload`. -/
def noIpReq : Request :=
  { baseReq with
    xForwardedFor := none
    xRealIp := none
    body := some noIpPayload }

/-- The audit row the handler builds for `noIpReq`. -/
def noIpRow : SubmissionRow :=
  { tenant_slug := "cfobras".data
    name := "Test User".data
    email := "test@example.com".data
    phone := none
    company_name := none
    contact_type := "general_query".data
    message := "Este es un mensaje de prueba".data
    ip := none
    user_agent := some ("curl/8.0".data) }

/-- The rate-limit RPC arguments the handler passes for `noIpReq`. -/
def noIpTpl : JStr × JStr × Int := ("cfobras".data, "0.0.0.0".data, 10)

/-- `baseReq` with a filled honeypot field. -/
def hpBotReq : Request :=
  { baseReq with
    body := some { basePayload with company_website := some ("http://spam.example".data) } }

/-- A POST request whose body fails to parse as JSON. -/
def badJsonReq : Request := { baseReq with body := none }

/-- `baseReq` sent from an origin that is not in the allow-list. -/
def evilOriginReq : Request :=
  { baseReq with origin := some ("https://evil.example".data) }

/-! ## String lemmas -/

theorem charOfNatToNat (n : Nat) (h : n < 0xd800) : (Char.ofNat n).toNat = n := by
  have hv : n.isValidChar := Or.inl h
  simp only [Char.ofNat, hv, dif_pos, Char.ofNatAux, Char.toNat]
  rfl

theorem isJsWhitespace_jsCharToLower (c : Char) :
    isJsWhitespace (jsCharToLower c) = isJsWhitespace c := by
  unfold jsCharToLower
  by_cases h : 65 ≤ c.toNat ∧ c.toNat ≤ 90
  · rw [if_pos h]
    have ht : (Char.ofNat (c.toNat + 32)).toNat = c.toNat + 32 :=
      charOfNatToNat _ (by omega)
    have h1 : isJsWhitespace (Char.ofNat (c.toNat + 32)) = false := by
      unfold isJsWhitespace
      rw [ht]
      simp only [decide_eq_false_iff_not]
      omega
    have h2 : isJsWhitespace c = false := by
      unfold isJsWhitespace
      simp only [decide_eq_false_iff_not]
      omega
    rw [h1, h2]
  · rw [if_neg h]

theorem jsCharToLower_idem (c : Char) :
    jsCharToLower (jsCharToLower c) = jsCharToLower c := by
  by_cases h : 65 ≤ c.toNat ∧ c.toNat ≤ 90
  · have h1 : jsCharToLower c = Char.ofNat (c.toNat + 32) := by
      unfold jsCharToLower
      rw [if_pos h]
    have ht : (Char.ofNat (c.toNat + 32)).toNat = c.toNat + 32 :=
      charOfNatToNat _ (by omega)
    rw [h1]
    unfold jsCharToLower
    rw [if_neg (by rw [ht]; omega)]
  · have h1 : jsCharToLower c = c := by
      unfold jsCharToLower
      rw [if_neg h]
    rw [h1]
    exact h1

theorem jsTrim_eq_rdropWhile (s : JStr) :
    jsTrim s = List.rdropWhile isJsWhitespace (s.dropWhile isJsWhitespace) := rfl

theorem dropWhile_rdropWhile_dropWhile (p : Char → Bool) (l : JStr) :
    List.dropWhile p (List.rdropWhile p (List.dropWhile p l)) =
      List.rdropWhile p (List.dropWhile p l) := by
  rcases eq_or_ne (List.rdropWhile p (List.dropWhile p l)) [] with h | h
  · rw [h]
    rfl
  · rw [List.dropWhile_eq_self_iff]
    intro hl
    have hpre : List.rdropWhile p (List.dropWhile p l) <+: List.dropWhile p l :=
      List.rdropWhile_prefix p _
    have hlen : 0 < (List.dropWhile p l).length := lt_of_lt_of_le hl hpre.length_le
    have h0 : (List.rdropWhile p (List.dropWhile p l)).get ⟨0, hl⟩ =
        (List.dropWhile p l).get ⟨0, hlen⟩ := by
      simpa using hpre.getElem hl
    rw [h0]
    exact List.dropWhile_get_zero_not p l hlen

theorem jsTrim_idem (s : JStr) : jsTrim (jsTrim s) = jsTrim s := by
  rw [jsTrim_eq_rdropWhile, jsTrim_eq_rdropWhile s,
    dropWhile_rdropWhile_dropWhile, List.rdropWhile_idempotent]

theorem isJsWhitespace_comp_jsCharToLower :
    (isJsWhitespace ∘ jsCharToLower) = isJsWhitespace :=
  funext isJsWhitespace_jsCharToLower

theorem dropWhile_jsToLower (s : JStr) :
    List.dropWhile isJsWhitespace (jsToLower s) =
      jsToLower (List.dropWhile isJsWhitespace s) := by
  unfold jsToLower
  rw [List.dropWhile_map, isJsWhitespace_comp_jsCharToLower]

theorem jsTrim_jsToLower (s : JStr) :
    jsTrim (jsToLower s) = jsToLower (jsTrim s) := by
  unfold jsTrim
  rw [dropWhile_jsToLower]
  unfold jsToLower
  rw [← List.map_reverse, List.dropWhile_map, isJsWhitespace_comp_jsCharToLower,
    ← List.map_reverse]

theorem jsToLower_idem (s : JStr) : jsToLower (jsToLower s) = jsToLower s := by
  unfold jsToLower
  rw [List.map_map]
  exact List.map_congr_left (fun c _ => jsCharToLower_idem c)

theorem normalizeTenantSlug_idem (s : JStr) :
    normalizeTenantSlug (normalizeTenantSlug s) = normalizeTenantSlug s := by
  unfold normalizeTenantSlug
  rw [jsTrim_jsToLower, jsToLower_idem, jsTrim_idem]

theorem normalizeTenantSlug_trim_lower (s : JStr) :
    normalizeTenantSlug (jsTrim (jsToLower s)) = normalizeTenantSlug s := by
  unfold normalizeTenantSlug
  rw [jsTrim_idem, jsTrim_jsToLower, jsToLower_idem]

/-! ## Rate limiter lemmas -/

theorem check_rl_state (st : RLState) (k : RLKey) (lim : Int) :
    (check_and_increment_rate_limit st k lim).2 k = some (getCount st k + 1) := by
  unfold check_and_increment_rate_limit getCount
  cases st k <;> simp

theorem check_rl_bool (st : RLState) (k : RLKey) (lim : Int) :
    (check_and_increment_rate_limit st k lim).1 =
      decide (((getCount st k : Int) + 1) ≤ lim) := by
  unfold check_and_increment_rate_limit getCount
  cases st k <;> simp

theorem runAttempts_spec (k : RLKey) (lim : Int) (n : Nat) (st : RLState) :
    getCount (runAttempts k lim st n).2 k = getCount st k + n ∧
    (runAttempts k lim st n).1 =
      (List.range n).map (fun i : Nat => decide (((getCount st k : Int) + (i : Int) + 1) ≤ lim)) := by
  induction n generalizing st with
  | zero => simp [runAttempts]
  | succ m ih =>
    have hst : (check_and_increment_rate_limit st k lim).2 k = some (getCount st k + 1) :=
      check_rl_state st k lim
    have hc : getCount (check_and_increment_rate_limit st k lim).2 k = getCount st k + 1 := by
      unfold getCount
      rw [hst]
      rfl
    obtain ⟨ih1, ih2⟩ := ih (check_and_increment_rate_limit st k lim).2
    constructor
    · show getCount (runAttempts k lim _ m).2 k = _
      rw [ih1, hc]
      omega
    · show (check_and_increment_rate_limit st k lim).1 :: (runAttempts k lim _ m).1 = _
      rw [ih2, hc, check_rl_bool, List.range_succ_eq_map, List.map_cons, List.map_map]
      rw [List.cons_eq_cons]
      constructor
      · apply decide_eq_decide.mpr
        constructor <;> intro h <;> (push_cast at *; omega)
      · apply List.map_congr_left
        intro i _
        apply decide_eq_decide.mpr
        constructor <;> intro h <;> (push_cast at *; omega)

theorem count_admitted (lim : Int) (n : Nat) :
    (((List.range n).map (fun i : Nat => decide (((i : Int) + 1) ≤ lim))).count true) =
      min n lim.toNat := by
  induction n with
  | zero => simp
  | succ m ih =>
    rw [List.range_succ, List.map_append, List.count_append, ih]
    by_cases h : ((m : Int) + 1) ≤ lim
    · simp only [List.map_cons, List.map_nil, decide_eq_true h, List.count_cons,
        List.count_nil, beq_self_eq_true, if_true]
      omega
    · simp only [List.map_cons, List.map_nil, decide_eq_false h, List.count_cons,
        List.count_nil]
      have hle : lim.toNat ≤ m := by omega
      norm_num
      omega

theorem take_admitted (lim : Int) (n : Nat) :
    (((List.range n).map (fun i : Nat => decide (((i : Int) + 1) ≤ lim))).take lim.toNat) =
      List.replicate (min n lim.toNat) true := by
  rw [← List.map_take, List.take_range]
  apply List.eq_replicate_iff.mpr
  constructor
  · rw [List.length_map, List.length_range]
    omega
  · intro b hb
    obtain ⟨i, hi, rfl⟩ := List.mem_map.mp hb
    rw [List.mem_range] at hi
    apply decide_eq_true
    omega

theorem drop_admitted (lim : Int) (n : Nat) :
    (((List.range n).map (fun i : Nat => decide (((i : Int) + 1) ≤ lim))).drop lim.toNat) =
      List.replicate (n - lim.toNat) false := by
  apply List.ext_getElem
  · rw [List.length_drop, List.length_map, List.length_range, List.length_replicate]
  · intro j h1 h2
    rw [List.getElem_drop, List.getElem_map, List.getElem_range, List.getElem_replicate]
    apply decide_eq_false
    omega

/-! ## Claim theorems -/

/-- Claim C1: each call to `check_and_increment_rate_limit` for a key
(tenant slug, source address, hour bucket) increments that key's counter
by exactly one — creating it at 1 on first use — and returns true iff
the post-increment count is at most the hourly limit; the increment is
never rolled back on rejection, so a sequence of n attempts on a fresh
key leaves the counter at exactly n, and exactly min(n, limit) attempts
— the first min(n, limit) in order — return true. -/
theorem C1_rate_limit_counter (st st2 : RLState) (k : RLKey) (lim : Int) (n : Nat)
    (h : st k = none) :
    getCount (runAttempts k lim st n).2 k = n ∧
    (runAttempts k lim st n).1 =
      (List.range n).map (fun i : Nat => decide (((i : Int) + 1) ≤ lim)) ∧
    ((runAttempts k lim st n).1).count true = min n lim.toNat ∧
    ((runAttempts k lim st n).1).take lim.toNat = List.replicate (min n lim.toNat) true ∧
    ((runAttempts k lim st n).1).drop lim.toNat = List.replicate (n - lim.toNat) false ∧
    (check_and_increment_rate_limit st2 k lim).2 k = some (getCount st2 k + 1) ∧
    (check_and_increment_rate_limit st2 k lim).1 =
      decide (((getCount st2 k : Int) + 1) ≤ lim) := by
  have h0 : getCount st k = 0 := by
    unfold getCount
    rw [h]
    rfl
  obtain ⟨h1, h2⟩ := runAttempts_spec k lim n st
  rw [h0] at h1 h2
  have h2x : (runAttempts k lim st n).1 =
      (List.range n).map (fun i : Nat => decide (((i : Int) + 1) ≤ lim)) := by
    rw [h2]
    apply List.map_congr_left
    intro i _
    apply decide_eq_decide.mpr
    constructor <;> intro hx <;> (push_cast at *; omega)
  refine ⟨by omega, h2x, ?_, ?_, ?_, check_rl_state st2 k lim, check_rl_bool st2 k lim⟩
  · rw [h2x, count_admitted]
  · rw [h2x, take_admitted]
  · rw [h2x, drop_admitted]

/-- Witness for C1: from an empty store, 5 attempts against limit 2
admit exactly the first 2 and leave the counter at 5; one call on a
store already at count 7 sets it to 8. -/
theorem C1_rate_limit_counter_witness :
    getCount (runAttempts rlKeySample 2 rlEmpty 5).2 rlKeySample = 5 ∧
    (runAttempts rlKeySample 2 rlEmpty 5).1 = [true, true, false, false, false] ∧
    (check_and_increment_rate_limit rlSeven rlKeySample 2).2 rlKeySample = some 8 := by
  have h := C1_rate_limit_counter rlEmpty rlSeven rlKeySample 2 5 rfl
  refine ⟨h.1, ?_, ?_⟩
  · rw [h.2.1]
    decide
  · rw [h.2.2.2.2.2.1]
    decide

/-- Claim C7: `normalizeContactType` maps any input, after trimming and
lower-casing, into the closed enumeration CONTACT_TYPES: a value whose
trimmed lower-casing is a member maps to that member, and every other
value, including a missing field, maps to `general_query`. -/
theorem C7_contact_type_coercion (v : Option JStr) :
    CONTACT_TYPES.contains (normalizeContactType v) = true ∧
    (CONTACT_TYPES.contains (jsToLower (jsTrim (v.getD []))) = true →
      normalizeContactType v = jsToLower (jsTrim (v.getD []))) ∧
    (CONTACT_TYPES.contains (jsToLower (jsTrim (v.getD []))) = false →
      normalizeContactType v = "general_query".data) ∧
    normalizeContactType none = "general_query".data := by
  have hn : normalizeContactType v =
      if CONTACT_TYPES.contains (jsToLower (jsTrim (v.getD [])))
      then jsToLower (jsTrim (v.getD [])) else "general_query".data := rfl
  by_cases h : CONTACT_TYPES.contains (jsToLower (jsTrim (v.getD []))) = true
  · rw [hn, if_pos h]
    refine ⟨h, fun _ => rfl, fun hc => ?_, by decide⟩
    rw [h] at hc
    cases hc
  · have hf : CONTACT_TYPES.contains (jsToLower (jsTrim (v.getD []))) = false :=
      Bool.eq_false_iff.mpr h
    rw [hn, if_neg (by rw [hf]; exact Bool.false_ne_true)]
    refine ⟨by decide, fun hc => ?_, fun _ => rfl, by decide⟩
    rw [hf] at hc
    cases hc

/-- Witness for C7: `"BUDGET_REQUEST"` coerces to `budget_request`,
`"nonsense"` coerces to `general_query`. -/
theorem C7_contact_type_coercion_witness :
    normalizeContactType (some ("BUDGET_REQUEST".data)) = "budget_request".data ∧
    normalizeContactType (some ("nonsense".data)) = "general_query".data := by
  constructor
  · have h := (C7_contact_type_coercion (some ("BUDGET_REQUEST".data))).2.1 (by decide)
    rw [h]
    decide
  · exact (C7_contact_type_coercion (some ("nonsense".data))).2.2.1 (by decide)

/-- Claim C8: tenant resolution is insensitive to surrounding whitespace
and letter case — resolving `s` and resolving `trim(lowercase(s))` yield
the same result, the normalization is idempotent, and in particular
`"  CfObras "` and `"cfobras"` resolve to the same tenant
configuration. -/
theorem C8_tenant_normalization (reg : List TenantSettings) (s : JStr) :
    resolveTenant reg (jsTrim (jsToLower s)) = resolveTenant reg s ∧
    normalizeTenantSlug (normalizeTenantSlug s) = normalizeTenantSlug s ∧
    resolveTenant reg ("  CfObras ".data) = resolveTenant reg ("cfobras".data) := by
  refine ⟨?_, normalizeTenantSlug_idem s, ?_⟩
  · unfold resolveTenant
    rw [normalizeTenantSlug_trim_lower]
  · unfold resolveTenant
    have h : normalizeTenantSlug ("  CfObras ".data) = normalizeTenantSlug ("cfobras".data) := by
      decide
    rw [h]

/-- Counterexample to claim C2 as stated: a request whose honeypot field
carries the non-empty value `" "` (one space) is not rejected at the
honeypot check — the handler trims the value before testing it (index.ts
line 196), so the request proceeds and, being otherwise valid, is
admitted with an audit record attempt. -/
theorem C2_honeypot_counterexample :
    honeypotSpaceReq.body.map ContactPayload.company_website = some (some (" ".data)) ∧
    (" ".data ≠ ([] : JStr)) ∧
    (handleRequest envOk dbOk honeypotSpaceReq).outcome = .admitted ∧
    (handleRequest envOk dbOk honeypotSpaceReq).effects.auditAttempt.isSome = true := by
  refine ⟨by decide, by decide, by decide, by decide⟩

/-- Claim C2 (amended): for every request whose honeypot field is
non-empty after trimming, the pipeline rejects with the uniform stealth
success response before field validation, tenant resolution, the origin
check and rate limiting (the backend oracle is arbitrary and unused),
and produces no audit record, no notification, and no rate-limit
increment. -/
theorem C2_honeypot_rejected (env : Env) (db : Db) (req : Request) (p : ContactPayload)
    (hm : req.method = "POST".data)
    (hu : env.supabaseUrl.getD [] ≠ [])
    (hk : env.serviceRoleKey.getD [] ≠ [])
    (hb : req.body = some p)
    (hh : jsTrim (p.company_website.getD []) ≠ []) :
    handleRequest env db req =
      { response := okStealth (req.origin.getD []), outcome := .honeypot,
        effects := noEffects } := by
  unfold handleRequest
  dsimp only
  rw [if_neg (show ¬(req.method = "OPTIONS".data) from by rw [hm]; decide)]
  rw [if_neg (show ¬(req.method ≠ "POST".data) from by rw [hm]; simp)]
  rw [if_neg (not_or.mpr ⟨hu, hk⟩)]
  rw [hb]
  dsimp only
  rw [if_pos (show (extractFields p).honeypot ≠ [] from hh)]

/-- Witness for C2 (amended) at a concrete bot request. -/
theorem C2_honeypot_rejected_witness :
    handleRequest envOk dbOk hpBotReq =
      { response := okStealth (hpBotReq.origin.getD []), outcome := .honeypot,
        effects := noEffects } :=
  C2_honeypot_rejected envOk dbOk hpBotReq
    { basePayload with company_website := some ("http://spam.example".data) }
    rfl (by decide) (by decide) rfl (by decide)

/-- The handler never makes a notification delivery attempt: the
`postToSlack` call at index.ts line 274 is commented out. -/
theorem notify_none (env : Env) (db : Db) (req : Request) :
    (handleRequest env db req).effects.notifyAttempt = none := by
  unfold handleRequest
  dsimp only
  repeat' split
  all_goals rfl

/-- Every branch of the handler either responds 200 `{"ok": true}` or is
one of the three non-stealth protocol branches (preflight, method not
allowed, misconfigured). -/
theorem handler_cases (env : Env) (db : Db) (req : Request) :
    ((handleRequest env db req).response.status = 200 ∧
      (handleRequest env db req).response.body = .okTrue) ∨
    (handleRequest env db req).outcome = .preflight ∨
    (handleRequest env db req).outcome = .methodNotAllowed ∨
    (handleRequest env db req).outcome = .misconfigured := by
  unfold handleRequest
  dsimp only
  repeat' split
  all_goals simp_all [okStealth, jsonResponse, STEALTH_MODE_ALWAYS_200]

/-- Claim C3, evaluated against the code: the claim is right about the
intent (the file header and README promise a synchronous Slack
notification per admitted submission) but the code makes no delivery
attempt at all — the `postToSlack` call at index.ts line 274 is
commented out.  For every request the notification attempt is `none`,
and at the concrete fully-valid admitted request the Slack message text
is still constructed and the audit attempt made, yet no notification
attempt occurs. -/
theorem C3_notification_never_attempted (env : Env) (db : Db) (req : Request) :
    (handleRequest env db req).effects.notifyAttempt = none ∧
    (handleRequest envOk dbOk baseReq).outcome = .admitted ∧
    (handleRequest envOk dbOk baseReq).effects.auditAttempt.isSome = true ∧
    (handleRequest envOk dbOk baseReq).effects.slackText.isSome = true ∧
    (handleRequest envOk dbOk baseReq).effects.notifyAttempt = none :=
  ⟨notify_none env db req, by decide, by decide, by decide, by decide⟩

/-- Claim C4: with stealth mode enabled, every rejected request
(malformed payload, invalid field, honeypot, unknown/disabled tenant,
origin mismatch, rate limit) receives a response with the same status
code (200) and the same body (`{"ok": true}`) as an admitted request, so
the caller cannot distinguish any such rejection from success by status
or body. -/
theorem C4_stealth_uniform_response (env : Env) (db : Db) (req : Request)
    (h : (handleRequest env db req).outcome = .invalidJson ∨
         (∃ c, (handleRequest env db req).outcome = .invalidField c) ∨
         (handleRequest env db req).outcome = .honeypot ∨
         (handleRequest env db req).outcome = .tenantRejected ∨
         (handleRequest env db req).outcome = .originRejected ∨
         (handleRequest env db req).outcome = .rateLimited ∨
         (handleRequest env db req).outcome = .admitted) :
    (handleRequest env db req).response.status = 200 ∧
    (handleRequest env db req).response.body = .okTrue := by
  rcases handler_cases env db req with hc | hc | hc | hc
  · exact hc
  all_goals
    rw [hc] at h
    rcases h with h | ⟨c, h⟩ | h | h | h | h | h <;> exact Outcome.noConfusion h

/-- Witness for C4: an unparsable body is rejected with status 200 and
body `{"ok": true}`. -/
theorem C4_stealth_uniform_response_witness :
    (handleRequest envOk dbOk badJsonReq).response.status = 200 ∧
    (handleRequest envOk dbOk badJsonReq).response.body = .okTrue :=
  C4_stealth_uniform_response envOk dbOk badJsonReq (Or.inl (by decide))

/-- Any request that reaches the body-handling stage against a backend
whose tenant lookup errors, finds no row, or finds a disabled tenant is
answered with the stealth success response and produces no side effect
at all. -/
theorem settings_reject_stealth (env : Env) (db : Db) (req : Request) (p : ContactPayload)
    (hm : req.method = "POST".data)
    (hu : env.supabaseUrl.getD [] ≠ [])
    (hk : env.serviceRoleKey.getD [] ≠ [])
    (hb : req.body = some p)
    (hs : settingsRejects db.settings = true) :
    (handleRequest env db req).response = okStealth (req.origin.getD []) ∧
    (handleRequest env db req).effects = noEffects := by
  unfold handleRequest
  dsimp only
  rw [if_neg (show ¬(req.method = "OPTIONS".data) from by rw [hm]; decide)]
  rw [if_neg (show ¬(req.method ≠ "POST".data) from by rw [hm]; simp)]
  rw [if_neg (not_or.mpr ⟨hu, hk⟩)]
  rw [hb]
  dsimp only
  repeat' split
  all_goals first
  | exact ⟨rfl, rfl⟩
  | simp_all [settingsRejects, STEALTH_MODE_ALWAYS_200]

/-- Claim C5: for every request naming a tenant that is unknown,
disabled, or whose config lookup fails with a backend error, the
pipeline fails closed: it returns the uniform success response, creates
no submission record, makes no notification attempt, and increments no
rate-limit counter — and the caller cannot distinguish these three
causes from each other (any two such backends produce identical
responses and identical side effects). -/
theorem C5_tenant_fail_closed (env : Env) (req : Request) (p : ContactPayload) (d1 d2 : Db)
    (hm : req.method = "POST".data)
    (hu : env.supabaseUrl.getD [] ≠ [])
    (hk : env.serviceRoleKey.getD [] ≠ [])
    (hb : req.body = some p)
    (h1 : settingsRejects d1.settings = true)
    (h2 : settingsRejects d2.settings = true) :
    (handleRequest env d1 req).response = okStealth (req.origin.getD []) ∧
    (handleRequest env d1 req).response.status = 200 ∧
    (handleRequest env d1 req).effects = noEffects ∧
    (handleRequest env d1 req).response = (handleRequest env d2 req).response ∧
    (handleRequest env d1 req).effects = (handleRequest env d2 req).effects := by
  obtain ⟨r1, e1⟩ := settings_reject_stealth env d1 req p hm hu hk hb h1
  obtain ⟨r2, e2⟩ := settings_reject_stealth env d2 req p hm hu hk hb h2
  refine ⟨r1, ?_, e1, ?_, ?_⟩
  · rw [r1]
    rfl
  · rw [r1, r2]
  · rw [e1, e2]

/-- Witness for C5: a backend error, and a found-but-disabled tenant,
both yield the stealth response with no side effects, identically. -/
theorem C5_tenant_fail_closed_witness :
    (handleRequest envOk dbErr baseReq).response = okStealth (baseReq.origin.getD []) ∧
    (handleRequest envOk dbErr baseReq).response.status = 200 ∧
    (handleRequest envOk dbErr baseReq).effects = noEffects ∧
    (handleRequest envOk dbErr baseReq).response =
      (handleRequest envOk dbDisabled baseReq).response ∧
    (handleRequest envOk dbErr baseReq).effects =
      (handleRequest envOk dbDisabled baseReq).effects :=
  C5_tenant_fail_closed envOk baseReq basePayload dbErr dbDisabled
    rfl (by decide) (by decide) rfl (by decide) (by decide)

/-- Counterexample to claim C6 as stated: the claim's "admits iff the
declared origin equals some member" direction fails when the allow-list
contains the empty string — a request with no Origin header has declared
origin "", which IS a member, yet the code rejects (`!origin`
short-circuits before the membership test). -/
theorem C6_origin_counterexample :
    (([] : JStr) ∈ emptyOriginSettings.allowed_origins.getD []) ∧
    noOriginReq.origin = none ∧
    (handleRequest envOk
        { settings := .found emptyOriginSettings, rpc := .val (some true), insert := .ok }
        noOriginReq).outcome = .originRejected := by
  refine ⟨by decide, by decide, by decide⟩

/-- Claim C6 (amended): the origin check admits a request iff the
declared origin string is non-empty AND exactly equal (string equality,
no normalization or wildcarding) to some member of the resolved tenant's
allowed-origin set; a missing (empty) origin is rejected even when the
allow-list contains the empty string, any non-member origin is rejected,
and under stealth mode that rejection is the uniform stealth response
with no side effects. -/
theorem C6_origin_check (env : Env) (db : Db) (req : Request) (p : ContactPayload)
    (s : TenantSettings)
    (hm : req.method = "POST".data)
    (hu : env.supabaseUrl.getD [] ≠ [])
    (hk : env.serviceRoleKey.getD [] ≠ [])
    (hb : req.body = some p)
    (hh : jsTrim (p.company_website.getD []) = [])
    (hv : firstValidationError (extractFields p) = none)
    (hs : db.settings = .found s)
    (he : s.enabled = true) :
    ((handleRequest env db req).outcome ≠ .originRejected ↔
      (req.origin.getD [] ≠ [] ∧ req.origin.getD [] ∈ s.allowed_origins.getD [])) ∧
    ((req.origin.getD [] = [] ∨ req.origin.getD [] ∉ s.allowed_origins.getD []) →
      handleRequest env db req =
        { response := okStealth (req.origin.getD []), outcome := .originRejected,
          effects := noEffects }) := by
  unfold handleRequest
  dsimp only
  rw [if_neg (show ¬(req.method = "OPTIONS".data) from by rw [hm]; decide)]
  rw [if_neg (show ¬(req.method ≠ "POST".data) from by rw [hm]; simp)]
  rw [if_neg (not_or.mpr ⟨hu, hk⟩)]
  rw [hb]
  dsimp only
  rw [if_neg (show ¬((extractFields p).honeypot ≠ []) from fun hne => hne hh)]
  rw [hv]
  dsimp only
  rw [hs]
  dsimp only
  rw [if_neg (show ¬(s.enabled = false) from by rw [he]; simp)]
  by_cases hc : req.origin.getD [] = [] ∨
      (s.allowed_origins.getD []).contains (req.origin.getD []) = false
  · rw [if_pos hc]
    constructor
    · constructor
      · intro hne
        exact absurd rfl hne
      · intro hx
        obtain ⟨hne, hmem⟩ := hx
        rcases hc with hc | hc
        · exact absurd hc hne
        · have ht : (s.allowed_origins.getD []).contains (req.origin.getD []) = true :=
            List.elem_iff.mpr hmem
          rw [hc] at ht
          cases ht
    · intro _
      rfl
  · rw [if_neg hc]
    push_neg at hc
    obtain ⟨hne, hcon⟩ := hc
    have hcon2 : (s.allowed_origins.getD []).contains (req.origin.getD []) = true := by
      revert hcon
      cases (s.allowed_origins.getD []).contains (req.origin.getD []) <;> simp
    have hmem : req.origin.getD [] ∈ s.allowed_origins.getD [] := List.elem_iff.mp hcon2
    constructor
    · constructor
      · intro _
        exact ⟨hne, hmem⟩
      · intro _
        split <;> simp
    · intro hbad
      rcases hbad with hbad | hbad
      · exact absurd hbad hne
      · exact absurd hmem hbad

/-- Witness for C6: the origin `https://evil.example` against the seed
tenant's allow-list is rejected with the stealth response; the exact
matching origin passes the origin check. -/
theorem C6_origin_check_witness :
    handleRequest envOk dbOk evilOriginReq =
      { response := okStealth (evilOriginReq.origin.getD []),
        outcome := .originRejected, effects := noEffects } ∧
    (handleRequest envOk dbOk baseReq).outcome ≠ .originRejected := by
  constructor
  · exact (C6_origin_check envOk dbOk evilOriginReq basePayload sampleSettings
      rfl (by decide) (by decide) rfl (by decide) (by decide) rfl rfl).2 (Or.inr (by decide))
  · exact (C6_origin_check envOk dbOk baseReq basePayload sampleSettings
      rfl (by decide) (by decide) rfl (by decide) (by decide) rfl rfl).1.mpr (by decide)

/-- Claim C9: the caller-visible response and the admission outcome do
not depend on the audit insert's outcome (success, error result, or
thrown exception), and an admitted request is answered 200
`{"ok": true}` with the CORS headers regardless of it. -/
theorem C9_audit_never_alters_response (env : Env) (req : Request) (s : SettingsResult)
    (r : RpcResult) (i1 i2 : InsertResult) :
    (handleRequest env { settings := s, rpc := r, insert := i1 } req).response =
      (handleRequest env { settings := s, rpc := r, insert := i2 } req).response ∧
    (handleRequest env { settings := s, rpc := r, insert := i1 } req).outcome =
      (handleRequest env { settings := s, rpc := r, insert := i2 } req).outcome ∧
    ((handleRequest env { settings := s, rpc := r, insert := i1 } req).outcome = .admitted →
      (handleRequest env { settings := s, rpc := r, insert := i1 } req).response =
        jsonResponse 200 .okTrue (corsHeaders (req.origin.getD []))) := by
  unfold handleRequest
  dsimp only
  repeat' split
  all_goals refine ⟨rfl, rfl, ?_⟩
  all_goals intro h
  all_goals first | rfl | cases h

/-- Witness for C9: the admitted request is answered 200 `{"ok": true}`
even when the audit insert throws. -/
theorem C9_audit_never_alters_response_witness :
    (handleRequest envOk dbThrown baseReq).response =
      jsonResponse 200 .okTrue (corsHeaders (baseReq.origin.getD [])) :=
  (C9_audit_never_alters_response envOk baseReq (.found sampleSettings) (.val (some true))
    .thrown .ok).2.2 (by decide)

/-- Claim C10: when no forwarding header (`x-forwarded-for`,
`x-real-ip`) is present, the handler uses the sentinel source address
`"0.0.0.0"` — so all such requests to one tenant share one hourly quota
key — and the persisted submission row stores `null` for the ip; an
empty (after trimming) phone or company name is persisted as `null`,
never as the empty string. -/
theorem C10_sentinel_ip_and_null_persistence (env : Env) (db : Db) (req : Request)
    (p : ContactPayload) (row : SubmissionRow) (tpl : JStr × JStr × Int)
    (hxf : req.xForwardedFor = none)
    (hxr : req.xRealIp = none)
    (hb : req.body = some p)
    (hrow : (handleRequest env db req).effects.auditAttempt = some row)
    (hrl : (handleRequest env db req).effects.rlCall = some tpl) :
    getClientIp req = "0.0.0.0".data ∧
    tpl.2.1 = "0.0.0.0".data ∧
    row.ip = none ∧
    (jsTrim (p.phone.getD []) = [] → row.phone = none) ∧
    row.phone ≠ some [] ∧
    (jsTrim (p.company_name.getD []) = [] → row.company_name = none) ∧
    row.company_name ≠ some [] := by
  have hip : getClientIp req = "0.0.0.0".data := by
    unfold getClientIp
    rw [hxf, hxr]
    rfl
  have hcomb := And.intro hrow hrl
  clear hrow hrl
  unfold handleRequest at hcomb
  dsimp only at hcomb
  repeat' split at hcomb
  all_goals simp only [noEffects, Option.some.injEq] at hcomb
  all_goals try exact absurd hcomb.1 (by simp)
  all_goals obtain ⟨hrow, hrl⟩ := hcomb
  all_goals subst hrow
  all_goals subst hrl
  all_goals simp_all [extractFields]

/-- Witness for C10 at a concrete request with no forwarding headers, a
whitespace-only phone and an empty company name. -/
theorem C10_sentinel_ip_and_null_persistence_witness :
    getClientIp noIpReq = "0.0.0.0".data ∧
    noIpTpl.2.1 = "0.0.0.0".data ∧
    noIpRow.ip = none ∧
    noIpRow.phone = none ∧
    noIpRow.company_name = none := by
  have h := C10_sentinel_ip_and_null_persistence envOk dbOk noIpReq noIpPayload
    noIpRow noIpTpl rfl rfl rfl (by decide) (by decide)
  exact ⟨h.1, h.2.1, h.2.2.1, h.2.2.2.1 (by decide), h.2.2.2.2.2.1 (by decide)⟩
